import Mathlib

set_option maxRecDepth 8000

/-!
Shallow embedding of the question-to-answer pipeline of
`experiments/exp_005_amira/code` (`intelligent_sparql_generator.py`,
`graphdb_client.py`, `intelligent_chatbot.py`), together with proofs about
the spec's claims on it.

Strings are modelled as `List Char` (`Text`).  Python exceptions are
modelled with `Except PyErr`; the constructors of `PyErr` name the Python
exception class, while the message text (used by the code only inside
f-strings for diagnostics) is abstracted away.  External collaborators
(the HTTP transport used by `requests`, the context builder, the LLM
completion endpoint) are modelled as oracle values supplied per pipeline
invocation, exactly at the call boundaries the source uses.
-/
/-- Texts are lists of characters; Python `str` values. -/

abbrev Text := List Char

/-- Python exception classes that the embedded code can raise.  Message
texts carried by the real exceptions are abstracted (no code path in the
embedded modules branches on them). -/
inductive PyErr where
  | jsonDecode
  | typeError
  | attributeError
  | keyError
  | generic
deriving DecidableEq

/-- JSON values as produced by Python's `json.loads`.  Numbers keep their
source lexeme: the embedded code never computes with a numeric value, it
only observes that a value is not a string.  Object fields are kept in
insertion order with unique keys, as a Python `dict` does. -/
inductive JValue where
  | null
  | bool (b : Bool)
  | num (lexeme : Text)
  | str (s : Text)
  | arr (elems : List JValue)
  | obj (fields : List (Text × JValue))

/-- Python `dict` update `d[k] = v`: replace in place if the key exists,
otherwise append. -/
def dictInsert (d : List (Text × JValue)) (k : Text) (v : JValue) :
    List (Text × JValue) :=
  match d with
  | [] => [(k, v)]
  | (k₁, v₁) :: rest =>
    if k₁ = k then (k₁, v) :: rest else (k₁, v₁) :: dictInsert rest k v

/-- Python `dict` lookup (keys are unique by construction). -/
def dictGet (d : List (Text × JValue)) (k : Text) : Option JValue :=
  match d with
  | [] => none
  | (k₁, v₁) :: rest => if k₁ = k then some v₁ else dictGet rest k

/-- Python `k in d` for a dict. -/
def dictHasKey (d : List (Text × JValue)) (k : Text) : Bool :=
  (dictGet d k).isSome

/-- JSON inter-token whitespace, as in Python's `json` module. -/
def jsonWs (c : Char) : Bool :=
  c = ' ' || c = '\t' || c = '\n' || c = '\r'

/-- Drop leading JSON whitespace. -/
def skipJWs : Text → Text
  | [] => []
  | c :: rest => if jsonWs c then skipJWs rest else c :: rest

/-- Value of one hex digit. -/
def hexVal (c : Char) : Option Nat :=
  if '0' ≤ c ∧ c ≤ '9' then some (c.toNat - 48)
  else if 'a' ≤ c ∧ c ≤ 'f' then some (c.toNat - 87)
  else if 'A' ≤ c ∧ c ≤ 'F' then some (c.toNat - 55)
  else none

/-- Read four hex digits. -/
def hex4 : Text → Option (Nat × Text)
  | a :: b :: c :: d :: r =>
    match hexVal a, hexVal b, hexVal c, hexVal d with
    | some x, some y, some z, some w => some (((x * 16 + y) * 16 + z) * 16 + w, r)
    | _, _, _, _ => none
  | _ => none

/-- Prepend a decoded character to a string-parse continuation. -/
def consCont (c : Char) : Except PyErr (Text × Text) → Except PyErr (Text × Text)
  | .ok (s, r) => .ok (c :: s, r)
  | .error e => .error e

/-- Body of a JSON string after the opening quote, following Python's
strict decoder: raw control characters are rejected, the escapes
`\" \\ \/ \b \f \n \r \t \uXXXX` are decoded, surrogate pairs are
combined.  Deviation: Python would keep a lone surrogate in the decoded
`str`; such a code unit is not a scalar value, so the embedding rejects
it (no theorem below exercises this case).  The fuel argument bounds the
recursion depth; every recursive call consumes at least one character, so
a fuel of `length + 1` is never exhausted. -/
def parseStrBody : Nat → Text → Except PyErr (Text × Text)
  | 0, _ => .error .jsonDecode
  | fuel + 1, cs =>
    match cs with
    | [] => .error .jsonDecode
    | c :: rest =>
      if c = '"' then .ok ([], rest)
      else if c = '\\' then
        match rest with
        | [] => .error .jsonDecode
        | e :: r₂ =>
          if e = '"' then consCont '"' (parseStrBody fuel r₂)
          else if e = '\\' then consCont '\\' (parseStrBody fuel r₂)
          else if e = '/' then consCont '/' (parseStrBody fuel r₂)
          else if e = 'b' then consCont (Char.ofNat 8) (parseStrBody fuel r₂)
          else if e = 'f' then consCont (Char.ofNat 12) (parseStrBody fuel r₂)
          else if e = 'n' then consCont '\n' (parseStrBody fuel r₂)
          else if e = 'r' then consCont '\r' (parseStrBody fuel r₂)
          else if e = 't' then consCont '\t' (parseStrBody fuel r₂)
          else if e = 'u' then
            match hex4 r₂ with
            | none => .error .jsonDecode
            | some (n, r₃) =>
              if 0xD800 ≤ n ∧ n ≤ 0xDBFF then
                match r₃ with
                | '\\' :: 'u' :: r₄ =>
                  match hex4 r₄ with
                  | some (m, r₅) =>
                    if 0xDC00 ≤ m ∧ m ≤ 0xDFFF then
                      consCont (Char.ofNat (0x10000 + (n - 0xD800) * 0x400 + (m - 0xDC00)))
                        (parseStrBody fuel r₅)
                    else .error .jsonDecode
                  | none => .error .jsonDecode
                | _ => .error .jsonDecode
              else if 0xDC00 ≤ n ∧ n ≤ 0xDFFF then .error .jsonDecode
              else consCont (Char.ofNat n) (parseStrBody fuel r₃)
          else .error .jsonDecode
      else if c.toNat < 32 then .error .jsonDecode
      else consCont c (parseStrBody fuel rest)

/-- Decimal digit test. -/
def isDig (c : Char) : Bool := '0' ≤ c ∧ c ≤ '9'

/-- Take the leading run of digits. -/
def spanDigits (cs : Text) : Text × Text :=
  (cs.takeWhile isDig, cs.dropWhile isDig)

/-- Fraction and exponent suffix of a number lexeme, mirroring the
optional groups of Python json's number regular expression
`(\.\d+)?([eE][-+]?\d+)?`: a group is consumed all-or-nothing. -/
def numTail (rest : Text) : Text × Text :=
  let fr :=
    match rest with
    | '.' :: r =>
      match spanDigits r with
      | ([], _) => (([] : Text), rest)
      | (ds, r₂) => ('.' :: ds, r₂)
    | _ => (([] : Text), rest)
  let rest₁ := fr.2
  let ex :=
    match rest₁ with
    | e :: r =>
      if e = 'e' ∨ e = 'E' then
        match r with
        | s :: r₂ =>
          if s = '+' ∨ s = '-' then
            match spanDigits r₂ with
            | ([], _) => (([] : Text), rest₁)
            | (ds, r₃) => (e :: s :: ds, r₃)
          else
            match spanDigits r with
            | ([], _) => (([] : Text), rest₁)
            | (ds, r₃) => (e :: ds, r₃)
        | [] => (([] : Text), rest₁)
      else (([] : Text), rest₁)
    | [] => (([] : Text), rest₁)
  (fr.1 ++ ex.1, ex.2)

/-- Number lexeme scanning, mirroring Python json's
`-?(0|[1-9]\d*)(\.\d+)?([eE][-+]?\d+)?`: the longest valid lexeme is
consumed and the remainder is left for the caller (so e.g. `01` scans as
`0` and the stray `1` surfaces as a later decode error). -/
def parseNumLex (cs : Text) : Option (Text × Text) :=
  let sgn :=
    match cs with
    | '-' :: r => ((['-'] : Text), r)
    | _ => (([] : Text), cs)
  match sgn.2 with
  | c :: r =>
    if c = '0' then
      let t := numTail r
      some (sgn.1 ++ '0' :: t.1, t.2)
    else if isDig c then
      let ds := spanDigits sgn.2
      let t := numTail ds.2
      some (sgn.1 ++ ds.1 ++ t.1, t.2)
    else none
  | [] => none

/-- Parser work items: a value, the element loop of an array, or the
member loop of an object. -/
inductive PReq where
  | val (cs : Text)
  | arrLoop (cs : Text) (acc : List JValue)
  | objLoop (cs : Text) (acc : List (Text × JValue))

/-- One recursive-descent parser for JSON values, mirroring Python's
`json.loads` grammar (including the non-standard constants `NaN`,
`Infinity` and `-Infinity` that Python accepts by default).  The fuel
bounds the recursion depth; along every call chain each unit of fuel is
paid for by at least one consumed character every two steps, so the
initial fuel of `2 * length + 8` is never exhausted. -/
def pstep : Nat → PReq → Except PyErr (JValue × Text)
  | 0, _ => .error .jsonDecode
  | fuel + 1, .val cs0 =>
    match skipJWs cs0 with
    | [] => .error .jsonDecode
    | c :: rest =>
      if c = '"' then
        match parseStrBody (rest.length + 1) rest with
        | .ok (s, r) => .ok (.str s, r)
        | .error e => .error e
      else if c = Char.ofNat 123 then
        match skipJWs rest with
        | c₂ :: r₂ =>
          if c₂ = Char.ofNat 125 then .ok (.obj [], r₂)
          else pstep fuel (.objLoop (c₂ :: r₂) [])
        | [] => .error .jsonDecode
      else if c = '[' then
        match skipJWs rest with
        | ']' :: r₂ => .ok (.arr [], r₂)
        | r => pstep fuel (.arrLoop r [])
      else if c = 'n' then
        match rest with
        | 'u' :: 'l' :: 'l' :: r => .ok (.null, r)
        | _ => .error .jsonDecode
      else if c = 't' then
        match rest with
        | 'r' :: 'u' :: 'e' :: r => .ok (.bool true, r)
        | _ => .error .jsonDecode
      else if c = 'f' then
        match rest with
        | 'a' :: 'l' :: 's' :: 'e' :: r => .ok (.bool false, r)
        | _ => .error .jsonDecode
      else if c = 'N' then
        match rest with
        | 'a' :: 'N' :: r => .ok (.num ("NaN".data), r)
        | _ => .error .jsonDecode
      else if c = 'I' then
        match rest with
        | 'n' :: 'f' :: 'i' :: 'n' :: 'i' :: 't' :: 'y' :: r =>
          .ok (.num ("Infinity".data), r)
        | _ => .error .jsonDecode
      else
        match c :: rest with
        | '-' :: 'I' :: 'n' :: 'f' :: 'i' :: 'n' :: 'i' :: 't' :: 'y' :: r =>
          .ok (.num ("-Infinity".data), r)
        | cs =>
          match parseNumLex cs with
          | some (lex, r) => .ok (.num lex, r)
          | none => .error .jsonDecode
  | fuel + 1, .arrLoop cs acc =>
    match pstep fuel (.val cs) with
    | .error e => .error e
    | .ok (v, r) =>
      match skipJWs r with
      | ',' :: r₂ => pstep fuel (.arrLoop r₂ (acc ++ [v]))
      | ']' :: r₂ => .ok (.arr (acc ++ [v]), r₂)
      | _ => .error .jsonDecode
  | fuel + 1, .objLoop cs acc =>
    match skipJWs cs with
    | '"' :: rest =>
      match parseStrBody (rest.length + 1) rest with
      | .error e => .error e
      | .ok (k, r) =>
        match skipJWs r with
        | ':' :: r₂ =>
          match pstep fuel (.val r₂) with
          | .error e => .error e
          | .ok (v, r₃) =>
            match skipJWs r₃ with
            | ',' :: r₄ => pstep fuel (.objLoop r₄ (dictInsert acc k v))
            | c :: r₄ =>
              if c = Char.ofNat 125 then .ok (.obj (dictInsert acc k v), r₄)
              else .error .jsonDecode
            | [] => .error .jsonDecode
        | _ => .error .jsonDecode
    | _ => .error .jsonDecode

/-- Python `json.loads`: parse one value and reject trailing garbage. -/
def jsonLoads (s : Text) : Except PyErr JValue :=
  match pstep (2 * s.length + 8) (.val s) with
  | .error e => .error e
  | .ok (v, r) =>
    match skipJWs r with
    | [] => .ok v
    | _ => .error .jsonDecode

/-- Whitespace for Python's `str.strip` and the regex class `\s` (ASCII
part plus the C1 separators; the rarely-used astral Unicode space code
points are omitted, and no theorem below exercises them). -/
def pySpace (c : Char) : Bool :=
  c = ' ' || c = '\t' || c = '\n' || c = '\r' || c = Char.ofNat 11 ||
  c = Char.ofNat 12 || c = Char.ofNat 28 || c = Char.ofNat 29 ||
  c = Char.ofNat 30 || c = Char.ofNat 31 || c = Char.ofNat 133 ||
  c = Char.ofNat 160

/-- Python `str.lstrip()`. -/
def pyStripLeft (s : Text) : Text := s.dropWhile pySpace

/-- Python `str.rstrip()`. -/
def pyStripRight (s : Text) : Text := (s.reverse.dropWhile pySpace).reverse

/-- Python `str.strip()`. -/
def pyStrip (s : Text) : Text := pyStripRight (pyStripLeft s)

/-- Python `str.replace(pat, rep)` with a non-empty pattern: scan left to
right, replace non-overlapping occurrences, never rescan a replacement.
Fuel-indexed so the definition reduces inside the kernel; each step
consumes at least one character, so fuel `length + 1` is never
exhausted. -/
def pyReplaceF : Nat → Text → Text → Text → Text
  | 0, s, _, _ => s
  | fuel + 1, s, pat, rep =>
    if pat.isPrefixOf s ∧ pat ≠ [] then
      rep ++ pyReplaceF fuel (s.drop pat.length) pat rep
    else
      match s with
      | [] => []
      | c :: rest => c :: pyReplaceF fuel rest pat rep

/-- Python `str.replace(pat, rep)` (the embedded code only calls it with
the non-empty patterns `\n` and `\t`). -/
def pyReplace (s pat rep : Text) : Text := pyReplaceF (s.length + 1) s pat rep

/-- Does `pat` occur at the head of `s`, case sensitively? -/
def matchSub : Text → Text → Bool
  | [], _ => true
  | _ :: _, [] => false
  | p :: ps, c :: cs => p = c && matchSub ps cs

/-- Index of the first occurrence of `pat` in `t`, offset by `i`. -/
def findSubAux : Text → Text → Nat → Option Nat
  | t, pat, i =>
    match t with
    | [] => if pat = [] then some i else none
    | _ :: rest =>
      if matchSub pat t then some i else findSubAux rest pat (i + 1)

/-- Index of the first occurrence of `pat` in `t`. -/
def findSub (t pat : Text) : Option Nat := findSubAux t pat 0

/-- Python `pat in t` for strings. -/
def containsSub (t pat : Text) : Bool := (findSub t pat).isSome

/-- Suffix of `t` after the first occurrence of `pat` (whole text when
`pat` does not occur). -/
def dropAfterFirstSub (t pat : Text) : Text :=
  match findSub t pat with
  | some i => t.drop (i + pat.length)
  | none => t

/-- Prefix of `t` before the first occurrence of `pat` (whole text when
`pat` does not occur); Python's `t.split(pat)[0]`. -/
def takeBeforeSub (t pat : Text) : Text :=
  match findSub t pat with
  | some i => t.take i
  | none => t

/-- ASCII lowercasing, for `re.IGNORECASE` matching of the ASCII keywords
in the fallback patterns. -/
def lowerAscii (c : Char) : Char :=
  if 'A' ≤ c ∧ c ≤ 'Z' then Char.ofNat (c.toNat + 32) else c

/-- Case-insensitive prefix match. -/
def matchCI : Text → Text → Bool
  | [], _ => true
  | _ :: _, [] => false
  | p :: ps, c :: cs => lowerAscii p = lowerAscii c && matchCI ps cs

/-- Case-insensitive search from an offset. -/
def findCIAux : Text → Text → Nat → Option Nat
  | t, pat, i =>
    match t with
    | [] => if pat = [] then some i else none
    | _ :: rest =>
      if matchCI pat t then some i else findCIAux rest pat (i + 1)

/-- Index (in `t`) of the first case-insensitive occurrence of `pat` at
position `i` or later. -/
def findCIFrom (t pat : Text) (i : Nat) : Option Nat := findCIAux (t.drop i) pat i

/-- Length of the run of `\s` characters at position `i` of `t`. -/
def wsRun (t : Text) (i : Nat) : Nat := ((t.drop i).takeWhile pySpace).length

/-- Python `str()`/`repr()` rendering of a `json.loads` result, used by
the orchestrator only as the degraded context `str(bindings)`.  String
escaping and quote switching inside `repr` are not reproduced (the
embedded code never inspects this text and no theorem below evaluates
it). -/
def joinComma : List Text → Text
  | [] => []
  | [t] => t
  | t :: rest => t ++ (", ".data) ++ joinComma rest

/-- Recursive part of the Python rendering. -/
def pyRepr : JValue → Text
  | .null => ("None".data)
  | .bool b => if b then ("True".data) else ("False".data)
  | .num lx => lx
  | .str s => '\x27' :: s ++ ['\x27']
  | .arr es => '[' :: joinComma (es.attach.map fun ⟨v, _⟩ => pyRepr v) ++ [']']
  | .obj fs => '\x7b' :: joinComma (fs.attach.map fun ⟨⟨k, v⟩, _⟩ =>
      '\x27' :: k ++ ("\x27: ".data) ++ pyRepr v) ++ ['\x7d']
decreasing_by
· have := List.sizeOf_lt_of_mem (by assumption : v ∈ es)
  simp only [JValue.arr.sizeOf_spec]
  omega
· have := List.sizeOf_lt_of_mem (by assumption : (k, v) ∈ fs)
  simp only [Prod.mk.sizeOf_spec] at this
  simp only [JValue.obj.sizeOf_spec]
  omega

/-- Python `str(v)`: identity on strings, `repr` otherwise. -/
def pyStr (v : JValue) : Text :=
  match v with
  | .str s => s
  | v => pyRepr v

/-- Python truthiness of a `json.loads` result (`not results` in
`intelligent_chatbot.py` line 112).  A number is falsy exactly when its
value is zero, i.e. when every digit of its mantissa is `0`. -/
def pyTruthy (v : JValue) : Bool :=
  match v with
  | .null => false
  | .bool b => b
  | .num lx =>
    !((lx.takeWhile fun c => c ≠ 'e' ∧ c ≠ 'E').filter isDig).all fun c => c = '0'
  | .str s => !s.isEmpty
  | .arr es => !es.isEmpty
  | .obj fs => !fs.isEmpty

/-- Python `key in container` for a string key: key membership for a
dict, element equality for a list, substring test for a string,
`TypeError` otherwise. -/
def pyContains (v : JValue) (k : Text) : Except PyErr Bool :=
  match v with
  | .obj fs => .ok (dictHasKey fs k)
  | .arr es => .ok (es.any fun e => match e with | .str s => s = k | _ => false)
  | .str s => .ok (containsSub s k)
  | _ => .error .typeError

/-- Python `container[key]` for a string key: dict lookup (`KeyError`
when absent), `TypeError` for strings, lists and non-subscriptables. -/
def pyGetItem (v : JValue) (k : Text) : Except PyErr JValue :=
  match v with
  | .obj fs =>
    match dictGet fs k with
    | some x => .ok x
    | none => .error .keyError
  | _ => .error .typeError

/-- Python `container[key] = x` for a string key: in-place dict update,
`TypeError` otherwise. -/
def pySetItem (v : JValue) (k : Text) (x : JValue) : Except PyErr JValue :=
  match v with
  | .obj fs => .ok (.obj (dictInsert fs k x))
  | _ => .error .typeError

/-- Python `value.strip()`: defined for strings, `AttributeError` for
every other `json.loads` value. -/
def pyStripAttr (v : JValue) : Except PyErr Text :=
  match v with
  | .str s => .ok (pyStrip s)
  | _ => .error .attributeError

/-- Python `len(value)`: lists, dicts and strings have a length,
`TypeError` otherwise. -/
def pyLen (v : JValue) : Except PyErr Nat :=
  match v with
  | .arr es => .ok es.length
  | .obj fs => .ok fs.length
  | .str s => .ok s.length
  | _ => .error .typeError

/-- Sequencing of possibly-raising Python steps. -/
def peBind {α β : Type} : Except PyErr α → (α → Except PyErr β) → Except PyErr β
  | .error e, _ => .error e
  | .ok a, f => f a

/-- Decimal rendering of a count, as a Python f-string renders an `int`. -/
def natText (n : Nat) : Text := (Nat.repr n).data

/-- Default of `ONTOLOGY_NAMESPACE` in `config.py`. -/
def ontologyNamespace : Text :=
  ("http://www.semanticweb.org/noamaadra/ontologies/2024/2/Horses#".data)

/-- Last-resort query of `_extract_sparql_fallback`
(`intelligent_sparql_generator.py` lines 561-570). -/
def defaultQueryText : Text :=
  ("\nPREFIX horses: <".data) ++ ontologyNamespace ++
  (">\nPREFIX rdf: <http://www.w3.org/1999/02/22-rdf-syntax-ns#>\n\nSELECT ?subject ?predicate ?object\nWHERE \x7b\n  ?subject ?predicate ?object .\n\x7d\nLIMIT 10\n".data)

/-- Unescaping applied to `sparql_query`
(`intelligent_sparql_generator.py` lines 515-516 and 557):
`.replace("\\n", "\n").replace("\\t", "\t")`. -/
def unescapeQ (s : Text) : Text :=
  pyReplace (pyReplace s ("\\n".data) ("\n".data)) ("\\t".data) ("\t".data)

/-- Inner loop of the first two fallback patterns: find a `WHERE`
occurrence at position `i` or later that is followed by optional `\s`
characters and a literal opening brace, then take everything through the
first closing brace; on a failed brace check resume at the next `WHERE`.
This realises the leftmost-shortest semantics of Python's lazy patterns
`WHERE\s*\{.*?\}` under `re.DOTALL | re.IGNORECASE`: a later overall
start can never succeed where this scan fails, because the candidate
`WHERE`/brace/closing-brace positions of later starts are subsets of the
ones scanned here.  Fuel `length + 1` is never exhausted since each
resumption advances the scan position. -/
def tryWheres : Nat → Text → Nat → Option Nat
  | 0, _, _ => none
  | fuel + 1, t, i =>
    match findCIFrom t ("WHERE".data) i with
    | none => none
    | some w =>
      let j := w + 5 + wsRun t (w + 5)
      if (t.drop j).head? = some (Char.ofNat 123) then
        match findCIFrom t ("\x7d".data) (j + 1) with
        | some cb => some (cb + 1)
        | none => none
      else tryWheres fuel t (w + 1)

/-- First fallback pattern `(PREFIX.*?SELECT.*?WHERE\s*\{.*?\})` of
`_extract_sparql_fallback`: the matched span, if any. -/
def searchPat1 (t : Text) : Option Text :=
  match findCIFrom t ("PREFIX".data) 0 with
  | none => none
  | some p =>
    match findCIFrom t ("SELECT".data) (p + 6) with
    | none => none
    | some sel =>
      match tryWheres (t.length + 1) t (sel + 6) with
      | none => none
      | some e => some ((t.drop p).take (e - p))

/-- Second fallback pattern `(SELECT.*?WHERE\s*\{.*?\})` of
`_extract_sparql_fallback`: the matched span, if any. -/
def searchPat2 (t : Text) : Option Text :=
  match findCIFrom t ("SELECT".data) 0 with
  | none => none
  | some sel =>
    match tryWheres (t.length + 1) t (sel + 6) with
    | none => none
    | some e => some ((t.drop sel).take (e - sel))

/-- `IntelligentSPARQLGenerator._extract_sparql_fallback`
(`intelligent_sparql_generator.py` lines 544-570): try the two patterns
in order, strip and unescape the first matched span, otherwise return the
fixed last-resort query. -/
def extractSparqlFallback (text : Text) : Text :=
  match searchPat1 text with
  | some span => unescapeQ (pyStrip span)
  | none =>
    match searchPat2 text with
    | some span => unescapeQ (pyStrip span)
    | none => defaultQueryText

/-- Markdown fence markers of `_parse_llm_response` lines 505-508. -/
def jsonFenceTok : Text := ("\x60\x60\x60json".data)

/-- Plain fence marker. -/
def fenceTok : Text := ("\x60\x60\x60".data)

/-- Fence-stripping step of `_parse_llm_response` (lines 504-508):
`cleaned.split("```json")[1].split("```")[0].strip()` when a json-tagged
fence is present, the analogue with the untagged marker otherwise.
Python's `split(m)[1]` is the segment between the first and second
occurrence of `m`; composed with `split("```")[0]` this equals taking
everything after the first occurrence and cutting at the next `` ``` ``,
because the second occurrence of `m` itself starts with `` ``` ``. -/
def extractFenced (cleaned : Text) : Text :=
  if containsSub cleaned jsonFenceTok then
    pyStrip (takeBeforeSub (dropAfterFirstSub cleaned jsonFenceTok) fenceTok)
  else if containsSub cleaned fenceTok then
    pyStrip (takeBeforeSub (dropAfterFirstSub cleaned fenceTok) fenceTok)
  else cleaned

/-- Key constants of the generator's result dictionary. -/
def kSparql : Text := ("sparql_query".data)

/-- Key of the entity list. -/
def kEntities : Text := ("entities_used".data)

/-- Key of the relation list. -/
def kRelations : Text := ("relations_used".data)

/-- Key of the explanation. -/
def kExplanation : Text := ("explanation".data)

/-- Explanation recorded by the JSON-decode-failure fallback (line 541). -/
def jsonInvalidText : Text := ("Requête extraite (JSON invalide)".data)

/-- Default explanation when the field is absent (line 530). -/
def defaultExplanationText : Text := ("Requête générée".data)

/-- Lines 523-530: default a missing field of the result dict. -/
def defaultKey (v : JValue) (k : Text) (d : JValue) : Except PyErr JValue :=
  peBind (pyContains v k) fun has => if has then .ok v else pySetItem v k d

/-- Post-JSON-decode part of `_parse_llm_response` (lines 514-532),
operating on the decoded value exactly as the Python statements do; only
`json.JSONDecodeError` is caught by the surrounding handler, so the
`TypeError`/`AttributeError` raised here on non-dict values or a
non-string `sparql_query` propagate out of the generator. -/
def afterDecode (llmResponse : Text) (v0 : JValue) : Except PyErr JValue :=
  peBind (pyContains v0 kSparql) fun has1 =>
  peBind
    (if has1 then
      peBind (pyGetItem v0 kSparql) fun item =>
        match item with
        | .str s => pySetItem v0 kSparql (.str (unescapeQ s))
        | _ => .ok v0
    else .ok v0) fun v1 =>
  peBind (pyContains v1 kSparql) fun has2 =>
  peBind
    (if has2 then
      peBind (pyGetItem v1 kSparql) fun item =>
      peBind (pyStripAttr item) fun st =>
        if st = [] then pySetItem v1 kSparql (.str (extractSparqlFallback llmResponse))
        else .ok v1
    else pySetItem v1 kSparql (.str (extractSparqlFallback llmResponse))) fun v2 =>
  peBind (defaultKey v2 kEntities (.arr [])) fun v3 =>
  peBind (defaultKey v3 kRelations (.arr [])) fun v4 =>
  defaultKey v4 kExplanation (.str defaultExplanationText)

/-- Result dictionary built by the `json.JSONDecodeError` handler
(lines 534-542). -/
def fallbackResult (llmResponse : Text) : JValue :=
  .obj [(kSparql, .str (extractSparqlFallback llmResponse)),
        (kEntities, .arr []),
        (kRelations, .arr []),
        (kExplanation, .str jsonInvalidText)]

/-- `IntelligentSPARQLGenerator._parse_llm_response`
(`intelligent_sparql_generator.py` lines 498-542). -/
def parseLLMResponse (llmResponse : Text) : Except PyErr JValue :=
  let cleaned := extractFenced (pyStrip llmResponse)
  match jsonLoads cleaned with
  | .error _ => .ok (fallbackResult llmResponse)
  | .ok v => afterDecode llmResponse v

/-- `IntelligentSPARQLGenerator.generate_sparql` (lines 248-272): build
the prompt, call the completion collaborator once, parse.  The prompt
text only feeds the collaborator, whose reply is the oracle input
`genResp`; `FrenchLLMClient.generate` itself never raises (it returns an
empty string once its bounded retries exhaust), so the reply is a plain
text. -/
def generateSparql (genResp : Text) : Except PyErr JValue :=
  parseLLMResponse genResp

/-- Outcome of the one `requests.post` call inside `GraphDBClient.query`:
a response with a status code and body, or one of the exception classes
distinguished by the handlers (`requests.exceptions.ConnectionError`,
`requests.exceptions.Timeout`, any other exception). -/
inductive HttpResp where
  | ok (status : Nat) (body : Text)
  | connError
  | timeout
  | otherExc

/-- Result dictionary returned by every exception handler of
`GraphDBClient.query` (lines 47-58): `{"results": {"bindings": []}}`. -/
def emptyGraphdbResult : JValue :=
  .obj [(("results".data), .obj [(("bindings".data), .arr [])])]

/-- `GraphDBClient.query` (`graphdb_client.py` lines 23-58):
`raise_for_status` raises for any status of 400 or above and `.json()`
raises on an unparseable body; every exception, including connection
errors and timeouts, is caught and turned into the empty-bindings
dictionary.  The function is total: it never propagates an exception. -/
def graphdbQuery (resp : HttpResp) : JValue :=
  match resp with
  | .ok status body =>
    if 400 ≤ status then emptyGraphdbResult
    else
      match jsonLoads body with
      | .ok v => v
      | .error _ => emptyGraphdbResult
  | .connError => emptyGraphdbResult
  | .timeout => emptyGraphdbResult
  | .otherExc => emptyGraphdbResult

/-- Transport or store-side failures of the executor: the three exception
classes, or a rejected query (HTTP status 400 and above, which
`raise_for_status` turns into an exception). -/
def HttpResp.isTransportFailure : HttpResp → Prop
  | .ok status _ => 400 ≤ status
  | .connError => True
  | .timeout => True
  | .otherExc => True

/-- Body of step 2 of `IntelligentEquestrianChatbot.answer_question`
(lines 110-123), everything inside the `try`: `.ok none` is the early
`return` (line 112-120, a missing or falsy result), `.error` is a raised
exception caught by line 128, and `.ok (some (bindings, n))` continues
the pipeline.  The `or` of line 112 is short-circuiting, so the
membership test runs only on truthy values. -/
def step2 (results : JValue) : Except PyErr (Option (JValue × Nat)) :=
  if !pyTruthy results then .ok none
  else
    peBind (pyContains results ("results".data)) fun hasKey =>
    if !hasKey then .ok none
    else
      peBind (pyGetItem results ("results".data)) fun inner =>
      peBind (pyGetItem inner ("bindings".data)) fun bindings =>
      peBind (pyLen bindings) fun n =>
      .ok (some (bindings, n))

/-- Artifacts of a completed generation step: the four values read out of
the generator's result dictionary by lines 75-78. -/
structure GenArtifacts where
  sparql_query : JValue
  entities_used : JValue
  relations_used : JValue
  explanation : JValue

/-- Step 1 of `answer_question` (lines 73-101): run the generator on the
completion collaborator's reply and read the four fields, all inside one
`try` whose handler produces the generation-failure outcome. -/
def step1 (genLLM : Except PyErr Text) : Except PyErr GenArtifacts :=
  peBind genLLM fun genResp =>
  peBind (generateSparql genResp) fun d =>
  peBind (pyGetItem d kSparql) fun sq =>
  peBind (pyGetItem d kEntities) fun eu =>
  peBind (pyGetItem d kRelations) fun ru =>
  peBind (pyGetItem d kExplanation) fun ex =>
  .ok ⟨sq, eu, ru, ex⟩

/-- External collaborators of one `answer_question` invocation: the
GraphDB transport outcome, `ContextBuilder.format_results` (excluded from
the core by the spec), and `FrenchLLMClient.generate` as called during
answer synthesis.  The two collaborator functions are modelled as
possibly raising so that the orchestrator's `except` handlers are
exercised. -/
structure Collabs where
  httpResp : HttpResp
  ctxFormat : JValue → JValue → Except PyErr Text
  synthLLM : Text → Text → Except PyErr Text

/-- System prompt of `_generate_answer` (lines 234-239). -/
def answerSystemPrompt : Text :=
  ("Tu es un assistant expert en données équestres.\nTu réponds aux questions en te basant UNIQUEMENT sur le contexte fourni par le graphe de connaissances.\nTu réponds en français, de manière claire, précise et naturelle.\nTu structures tes réponses de façon informative sans être trop verbeux.\nSi l\x27information n\x27est pas dans le contexte, tu le dis clairement.\nNe jamais inventer d\x27informations.".data)

/-- User prompt of `_generate_answer` when `results_count == 0`
(lines 243-248): the "no information found" branch. -/
def zeroResultsPrompt (question : Text) : Text :=
  ("Question: ".data) ++ question ++
  ("\n\nContexte: Aucune donnée trouvée dans le graphe de connaissances.\n\nRéponds poliment que tu n\x27as pas trouvé d\x27informations pour répondre à cette question.\nSuggère que les données recherchées n\x27existent peut-être pas encore dans la base.".data)

/-- User prompt of `_generate_answer` when `results_count > 0`
(lines 250-256). -/
def someResultsPrompt (question context : Text) (n : Nat) : Text :=
  ("Question: ".data) ++ question ++
  ("\n\nContexte du graphe de connaissances (".data) ++ natText n ++
  (" résultats trouvés):\n".data) ++ context ++
  ("\n\nRéponds à la question en te basant uniquement sur ce contexte.\nSois précis, informatif et naturel. Structure ta réponse de manière claire.".data)

/-- `IntelligentEquestrianChatbot._generate_answer` (lines 219-261). -/
def generateAnswer (synthLLM : Text → Text → Except PyErr Text)
    (question context : Text) (n : Nat) : Except PyErr Text :=
  let userPrompt := if n = 0 then zeroResultsPrompt question else someResultsPrompt question context n
  synthLLM userPrompt answerSystemPrompt

/-- Degraded synthesis answer when `results_count > 0` (line 192). -/
def synthFallbackAnswer (n : Nat) (context : Text) : Text :=
  ("J\x27ai trouvé ".data) ++ natText n ++
  (" résultat(s), mais je n\x27ai pas pu générer une réponse naturelle. Voici les données brutes: ".data) ++
  context.take 200 ++ ("...".data)

/-- Degraded synthesis answer when `results_count == 0` (line 194). -/
def noResultsAnswer : Text :=
  ("Je n\x27ai pas trouvé de résultats pour cette question.".data)

/-- Step 3 of `answer_question` (lines 152-173): the context text, with
the raw `str(bindings)` dump substituted if the context builder raises. -/
def contextOf (co : Collabs) (bindings explanation : JValue) : Text :=
  match co.ctxFormat bindings explanation with
  | .ok c => c
  | .error _ => pyStr bindings

/-- Step 4 of `answer_question` (lines 181-194): the synthesized answer,
with the canned degradations substituted if synthesis raises. -/
def answerOf (co : Collabs) (question context : Text) (n : Nat) : Text :=
  match generateAnswer co.synthLLM question context n with
  | .ok ans => ans
  | .error _ => if 0 < n then synthFallbackAnswer n context else noResultsAnswer

/-- Externally visible outcome of `answer_question`: the returned
dictionary.  A failure dictionary (`success: False`) carries the error
text, the question, and — only for failures raised at or after query
execution — the generated `sparql_query`; the success dictionary of
lines 206-217 carries every artifact. -/
inductive Outcome where
  | failure (error : Text) (question : Text) (sparql_query : Option JValue)
  | success (question : Text) (sparql_query : JValue)
      (entities_used relations_used explanation : JValue)
      (results_count : Nat) (context : Text) (answer : Text) (raw_results : JValue)

/-- Is the outcome a success dictionary? -/
def Outcome.isSuccess : Outcome → Bool
  | .success _ _ _ _ _ _ _ _ _ => true
  | .failure _ _ _ => false

/-- The `results_count` field, when present. -/
def Outcome.resultsCount : Outcome → Option Nat
  | .success _ _ _ _ _ n _ _ _ => some n
  | .failure _ _ _ => none

/-- The `answer` field, when present. -/
def Outcome.answerField : Outcome → Option Text
  | .success _ _ _ _ _ _ _ a _ => some a
  | .failure _ _ _ => none

/-- The generated query carried by the outcome, when present. -/
def Outcome.sparqlField : Outcome → Option JValue
  | .success _ sq _ _ _ _ _ _ _ => some sq
  | .failure _ _ sq => sq

/-- Error text of a generation failure (line 95); the Python `str(e)`
payload is abstracted by the exception class name. -/
def errClassText : PyErr → Text
  | .jsonDecode => ("JSONDecodeError".data)
  | .typeError => ("TypeError".data)
  | .attributeError => ("AttributeError".data)
  | .keyError => ("KeyError".data)
  | .generic => ("Exception".data)

/-- Failure message of step 1 (line 95). -/
def genErrorMsg (e : PyErr) : Text :=
  ("Erreur lors de la génération SPARQL: ".data) ++ errClassText e

/-- Failure message of step 2's exception handler (line 129). -/
def gdbErrorMsg (e : PyErr) : Text := ("Erreur GraphDB: ".data) ++ errClassText e

/-- Failure message of step 2's missing-result return (line 117). -/
def noGraphdbResultsMsg : Text := ("Pas de résultats de GraphDB".data)

/-- `IntelligentEquestrianChatbot.answer_question`
(`intelligent_chatbot.py` lines 51-217), with `verbose` printing elided
(it only writes to stdout).  `genLLM` is the completion collaborator's
reply for the generation prompt, wrapped in `Except` so that a raising
collaborator also exercises step 1's handler. -/
def answerQuestion (question : Text) (genLLM : Except PyErr Text) (co : Collabs) : Outcome :=
  match step1 genLLM with
  | .error e => .failure (genErrorMsg e) question none
  | .ok a =>
    let results := graphdbQuery co.httpResp
    match step2 results with
    | .error e => .failure (gdbErrorMsg e) question (some a.sparql_query)
    | .ok none => .failure noGraphdbResultsMsg question (some a.sparql_query)
    | .ok (some (bindings, n)) =>
      let context := contextOf co bindings a.explanation
      let answer := answerOf co question context n
      .success question a.sparql_query a.entities_used a.relations_used a.explanation
        n context answer results

/-- Modelled from the spec: the escaping whose round-trip the spec
asserts ("escape→unescape is identity for `\n` and `\t`") — replace a
newline by the two-character sequence backslash-`n` and a tab by
backslash-`t`.  No escape function exists in the source; this definition
follows the spec's words only. -/
def escapeNT : Text → Text
  | [] => []
  | c :: rest =>
    if c = '\n' then '\\' :: 'n' :: escapeNT rest
    else if c = '\t' then '\\' :: 't' :: escapeNT rest
    else c :: escapeNT rest

/-- Intermediate form: tabs still escaped, newlines already restored. -/
def escapeTabOnly : Text → Text
  | [] => []
  | c :: rest =>
    if c = '\t' then '\\' :: 't' :: escapeTabOnly rest else c :: escapeTabOnly rest

theorem jsonLoads_scenario :
    jsonLoads ("\x7b\"a\": [1, \"x\"], \"a\": null\x7d".data) =
      .ok (.obj [("a".data, .null)]) := rfl

theorem jsonLoads_nonobj : jsonLoads ("3".data) = .ok (.num ("3".data)) := rfl

theorem jsonLoads_bad : jsonLoads ("not json".data) = .error .jsonDecode := rfl

theorem pyStrip_example : pyStrip ("  a b\n".data) = ("a b".data) := rfl

theorem findSub_example : findSub ("abcbc".data) ("bc".data) = some 1 := rfl

theorem findCI_example : findCIFrom ("xxSeLeCt".data) ("SELECT".data) 1 = some 2 := rfl

theorem step2_empty : step2 emptyGraphdbResult = .ok (some (.arr [], 0)) := rfl

theorem graphdbQuery_of_transportFailure (resp : HttpResp)
    (h : resp.isTransportFailure) : graphdbQuery resp = emptyGraphdbResult := by
  cases resp with
  | ok status body =>
    have hs : 400 ≤ status := h
    simp [graphdbQuery, if_pos hs]
  | connError => rfl
  | timeout => rfl
  | otherExc => rfl

/-- C9: the GraphDB client's `query` is total.  Its result type is a plain
function into `JValue` (no `Except`), so totality is structural; this
theorem adds that every transport failure — connection error, timeout,
any other exception, a rejected query (status 400 and above turned into
an exception by `raise_for_status`), or an unparseable success body —
returns exactly `{"results": {"bindings": []}}`, and that this value
coincides with the one returned for a genuinely successful query with
zero bindings, so the two are indistinguishable at the executor
boundary. -/
theorem graphdb_query_total_absorbs_failures :
    (∀ resp : HttpResp, resp.isTransportFailure → graphdbQuery resp = emptyGraphdbResult) ∧
    (∀ (st : Nat) (body : Text) (er : PyErr), jsonLoads body = .error er →
      graphdbQuery (.ok st body) = emptyGraphdbResult) ∧
    graphdbQuery (.ok 200 (("\x7b\"results\": \x7b\"bindings\": []\x7d\x7d").data)) =
      emptyGraphdbResult := by
  refine ⟨graphdbQuery_of_transportFailure, ?_, rfl⟩
  intro st body er hb
  by_cases hs : 400 ≤ st
  · simp [graphdbQuery, if_pos hs]
  · simp [graphdbQuery, if_neg hs, hb]

/-- Witness for C9 at concrete inputs: a connection error and an
unparseable 200-body both yield the empty-bindings dictionary. -/
theorem graphdb_query_total_absorbs_failures_witness :
    (HttpResp.connError.isTransportFailure ∧
      graphdbQuery .connError = emptyGraphdbResult) ∧
    (jsonLoads (("oops").data) = .error .jsonDecode ∧
      graphdbQuery (.ok 200 (("oops").data)) = emptyGraphdbResult) :=
  ⟨⟨trivial, graphdb_query_total_absorbs_failures.1 .connError trivial⟩,
   ⟨rfl, graphdb_query_total_absorbs_failures.2.1 200 (("oops").data) .jsonDecode rfl⟩⟩

/-- C1 counterexample: with a connection error at the executor, the
pipeline does NOT return a failure outcome.  The generation reply `x`
parses through the fallback (yielding the last-resort query), the client
absorbs the connection error into an empty result set, and the entry
point returns the success dictionary with `results_count = 0` — refuting
the claim that a connectivity failure yields `Failure` with
`stage = execution`. -/
theorem c1_connectivity_counterexample :
    answerQuestion (("q").data) (.ok (("x").data))
        ⟨.connError, fun _ _ => .ok (("ctx").data), fun _ _ => .ok (("ans").data)⟩ =
      .success (("q").data) (.str defaultQueryText) (.arr []) (.arr [])
        (.str jsonInvalidText) 0 (("ctx").data) (("ans").data) emptyGraphdbResult ∧
    (answerQuestion (("q").data) (.ok (("x").data))
        ⟨.connError, fun _ _ => .ok (("ctx").data), fun _ _ => .ok (("ans").data)⟩).isSuccess
      = true :=
  ⟨rfl, rfl⟩

/-- C1 as amended: a transport or store-side failure of the executor
(connection error, timeout, any other exception, or a rejected query) is
absorbed by the client into an empty result set, and — provided
generation completed — the pipeline returns a Success outcome with
`results_count = 0` that still carries the generated query and the
generation artifacts; no execution-stage Failure is produced. -/
theorem c1_transport_failure_gives_empty_success
    (question : Text) (genLLM : Except PyErr Text) (co : Collabs) (a : GenArtifacts)
    (h1 : step1 genLLM = .ok a) (h2 : co.httpResp.isTransportFailure) :
    answerQuestion question genLLM co =
      .success question a.sparql_query a.entities_used a.relations_used a.explanation
        0 (contextOf co (.arr []) a.explanation)
        (answerOf co question (contextOf co (.arr []) a.explanation) 0)
        emptyGraphdbResult := by
  have hg : graphdbQuery co.httpResp = emptyGraphdbResult :=
    graphdbQuery_of_transportFailure _ h2
  unfold answerQuestion
  rw [h1, hg]
  rfl

/-- Witness for C1's amended theorem at a concrete timeout. -/
theorem c1_transport_failure_gives_empty_success_witness :
    step1 (.ok (("x").data)) =
      .ok ⟨.str defaultQueryText, .arr [], .arr [], .str jsonInvalidText⟩ ∧
    HttpResp.timeout.isTransportFailure ∧
    answerQuestion (("q").data) (.ok (("x").data))
        ⟨.timeout, fun _ _ => .ok (("ctx").data), fun _ _ => .ok (("ans").data)⟩ =
      .success (("q").data) (.str defaultQueryText) (.arr []) (.arr [])
        (.str jsonInvalidText) 0 (("ctx").data) (("ans").data) emptyGraphdbResult :=
  ⟨rfl, trivial,
    c1_transport_failure_gives_empty_success (("q").data) (.ok (("x").data))
      ⟨.timeout, fun _ _ => .ok (("ctx").data), fun _ _ => .ok (("ans").data)⟩
      ⟨.str defaultQueryText, .arr [], .arr [], .str jsonInvalidText⟩ rfl trivial⟩

/-- C4: when the generated query executes successfully with zero bindings
the pipeline is a Success with `results_count = 0`, and the answer comes
from the "no information found" branch of the synthesizer prompt
(`zeroResultsPrompt`); the execution-failure branch is not taken. -/
theorem c4_zero_bindings_success
    (question : Text) (genLLM : Except PyErr Text) (co : Collabs)
    (a : GenArtifacts) (bindings : JValue)
    (h1 : step1 genLLM = .ok a)
    (h2 : step2 (graphdbQuery co.httpResp) = .ok (some (bindings, 0))) :
    answerQuestion question genLLM co =
      .success question a.sparql_query a.entities_used a.relations_used a.explanation
        0 (contextOf co bindings a.explanation)
        (match co.synthLLM (zeroResultsPrompt question) answerSystemPrompt with
          | .ok ans => ans
          | .error _ => noResultsAnswer)
        (graphdbQuery co.httpResp) := by
  simp only [answerQuestion, h1, h2]
  rfl

/-- Witness for C4: a parsed generation, a 200 response with zero
bindings, and a succeeding synthesizer. -/
theorem c4_zero_bindings_success_witness :
    step1 (.ok (("x").data)) =
      .ok ⟨.str defaultQueryText, .arr [], .arr [], .str jsonInvalidText⟩ ∧
    step2 (graphdbQuery (.ok 200 (("\x7b\"results\": \x7b\"bindings\": []\x7d\x7d").data))) =
      .ok (some (.arr [], 0)) ∧
    answerQuestion (("q").data) (.ok (("x").data))
        ⟨.ok 200 (("\x7b\"results\": \x7b\"bindings\": []\x7d\x7d").data),
         fun _ _ => .ok (("ctx").data), fun _ _ => .ok (("ans").data)⟩ =
      .success (("q").data) (.str defaultQueryText) (.arr []) (.arr [])
        (.str jsonInvalidText) 0 (("ctx").data) (("ans").data) emptyGraphdbResult :=
  ⟨rfl, rfl,
    c4_zero_bindings_success (("q").data) (.ok (("x").data))
      ⟨.ok 200 (("\x7b\"results\": \x7b\"bindings\": []\x7d\x7d").data),
       fun _ _ => .ok (("ctx").data), fun _ _ => .ok (("ans").data)⟩
      ⟨.str defaultQueryText, .arr [], .arr [], .str jsonInvalidText⟩ (.arr []) rfl rfl⟩

/-- C8: once execution has succeeded, a raising answer synthesizer never
produces a pipeline Failure: the orchestrator substitutes the
fixed-format count-and-excerpt answer when `results_count > 0` and the
fixed "no information found" message when `results_count = 0`, and the
outcome is the terminal Success dictionary in both cases. -/
theorem c8_synthesis_failure_degrades
    (question : Text) (genLLM : Except PyErr Text) (co : Collabs)
    (a : GenArtifacts) (bindings : JValue) (n : Nat) (e : PyErr)
    (h1 : step1 genLLM = .ok a)
    (h2 : step2 (graphdbQuery co.httpResp) = .ok (some (bindings, n)))
    (h3 : generateAnswer co.synthLLM question (contextOf co bindings a.explanation) n
        = .error e) :
    answerQuestion question genLLM co =
      .success question a.sparql_query a.entities_used a.relations_used a.explanation
        n (contextOf co bindings a.explanation)
        (if 0 < n then synthFallbackAnswer n (contextOf co bindings a.explanation)
          else noResultsAnswer)
        (graphdbQuery co.httpResp) := by
  simp only [answerQuestion, h1, h2]
  unfold answerOf
  rw [h3]

/-- Witness for C8, exercising both counts: with one binding the
count-and-excerpt answer is substituted, with zero bindings the fixed
no-information message is. -/
theorem c8_synthesis_failure_degrades_witness :
    (step1 (.ok (("x").data)) =
        .ok ⟨.str defaultQueryText, .arr [], .arr [], .str jsonInvalidText⟩ ∧
      step2 (graphdbQuery (.ok 200
          (("\x7b\"results\": \x7b\"bindings\": [\x7b\x7d]\x7d\x7d").data))) =
        .ok (some (.arr [.obj []], 1)) ∧
      generateAnswer (fun _ _ => .error .generic) (("q").data) (("ctx").data) 1 =
        .error .generic ∧
      answerQuestion (("q").data) (.ok (("x").data))
          ⟨.ok 200 (("\x7b\"results\": \x7b\"bindings\": [\x7b\x7d]\x7d\x7d").data),
           fun _ _ => .ok (("ctx").data), fun _ _ => .error .generic⟩ =
        .success (("q").data) (.str defaultQueryText) (.arr []) (.arr [])
          (.str jsonInvalidText) 1 (("ctx").data)
          (synthFallbackAnswer 1 (("ctx").data))
          (.obj [(("results").data, .obj [(("bindings").data, .arr [.obj []])])])) ∧
    (answerQuestion (("q").data) (.ok (("x").data))
          ⟨.connError, fun _ _ => .ok (("ctx").data), fun _ _ => .error .generic⟩ =
        .success (("q").data) (.str defaultQueryText) (.arr []) (.arr [])
          (.str jsonInvalidText) 0 (("ctx").data) noResultsAnswer emptyGraphdbResult) :=
  ⟨⟨rfl, rfl, rfl,
    c8_synthesis_failure_degrades (("q").data) (.ok (("x").data))
      ⟨.ok 200 (("\x7b\"results\": \x7b\"bindings\": [\x7b\x7d]\x7d\x7d").data),
       fun _ _ => .ok (("ctx").data), fun _ _ => .error .generic⟩
      ⟨.str defaultQueryText, .arr [], .arr [], .str jsonInvalidText⟩
      (.arr [.obj []]) 1 .generic rfl rfl rfl⟩,
   c8_synthesis_failure_degrades (("q").data) (.ok (("x").data))
      ⟨.connError, fun _ _ => .ok (("ctx").data), fun _ _ => .error .generic⟩
      ⟨.str defaultQueryText, .arr [], .arr [], .str jsonInvalidText⟩
      (.arr []) 0 .generic rfl rfl rfl⟩

/-- C10: if the completion collaborator returns an empty string during
answer synthesis without raising (its behaviour once its bounded retries
exhaust), the pipeline returns Success whose `answer` is the empty
string; the canned synthesis degradation is not substituted. -/
theorem c10_empty_synthesis_is_verbatim
    (question : Text) (genLLM : Except PyErr Text) (co : Collabs)
    (a : GenArtifacts) (bindings : JValue) (n : Nat)
    (h1 : step1 genLLM = .ok a)
    (h2 : step2 (graphdbQuery co.httpResp) = .ok (some (bindings, n)))
    (h3 : ∀ p sp, co.synthLLM p sp = .ok []) :
    answerQuestion question genLLM co =
      .success question a.sparql_query a.entities_used a.relations_used a.explanation
        n (contextOf co bindings a.explanation) [] (graphdbQuery co.httpResp) := by
  simp only [answerQuestion, h1, h2]
  unfold answerOf generateAnswer
  rw [h3]

/-- Witness for C10: an always-empty synthesizer yields the empty answer
on a one-binding success. -/
theorem c10_empty_synthesis_is_verbatim_witness :
    step1 (.ok (("x").data)) =
      .ok ⟨.str defaultQueryText, .arr [], .arr [], .str jsonInvalidText⟩ ∧
    step2 (graphdbQuery (.ok 200
        (("\x7b\"results\": \x7b\"bindings\": [\x7b\x7d]\x7d\x7d").data))) =
      .ok (some (.arr [.obj []], 1)) ∧
    answerQuestion (("q").data) (.ok (("x").data))
        ⟨.ok 200 (("\x7b\"results\": \x7b\"bindings\": [\x7b\x7d]\x7d\x7d").data),
         fun _ _ => .ok (("ctx").data), fun _ _ => .ok []⟩ =
      .success (("q").data) (.str defaultQueryText) (.arr []) (.arr [])
        (.str jsonInvalidText) 1 (("ctx").data) []
        (.obj [(("results").data, .obj [(("bindings").data, .arr [.obj []])])]) :=
  ⟨rfl, rfl,
    c10_empty_synthesis_is_verbatim (("q").data) (.ok (("x").data))
      ⟨.ok 200 (("\x7b\"results\": \x7b\"bindings\": [\x7b\x7d]\x7d\x7d").data),
       fun _ _ => .ok (("ctx").data), fun _ _ => .ok []⟩
      ⟨.str defaultQueryText, .arr [], .arr [], .str jsonInvalidText⟩
      (.arr [.obj []]) 1 rfl rfl (fun _ _ => rfl)⟩

/-- C7: when neither fallback matcher succeeds, the extraction returns
the fixed last-resort query — an unfiltered `?subject ?predicate ?object`
pattern over the default graph bounded by `LIMIT 10` — the generator
propagates it as the `sparql_query` of an otherwise-empty result, and the
value is the same constant across any two such failures. -/
theorem c7_default_query_on_no_match :
    (∀ raw : Text, searchPat1 raw = none → searchPat2 raw = none →
      extractSparqlFallback raw = defaultQueryText) ∧
    (∀ raw raw₂ : Text, searchPat1 raw = none → searchPat2 raw = none →
      searchPat1 raw₂ = none → searchPat2 raw₂ = none →
      extractSparqlFallback raw = extractSparqlFallback raw₂) ∧
    (∀ (raw : Text) (er : PyErr),
      jsonLoads (extractFenced (pyStrip raw)) = .error er →
      searchPat1 raw = none → searchPat2 raw = none →
      parseLLMResponse raw =
        .ok (.obj [(kSparql, .str defaultQueryText), (kEntities, .arr []),
                   (kRelations, .arr []), (kExplanation, .str jsonInvalidText)])) := by
  have hbase : ∀ raw : Text, searchPat1 raw = none → searchPat2 raw = none →
      extractSparqlFallback raw = defaultQueryText := by
    intro raw h1 h2
    unfold extractSparqlFallback
    rw [h1, h2]
  refine ⟨hbase, ?_, ?_⟩
  · intro raw raw₂ h1 h2 h3 h4
    rw [hbase raw h1 h2, hbase raw₂ h3 h4]
  · intro raw er hj h1 h2
    simp only [parseLLMResponse, hj]
    unfold fallbackResult
    rw [hbase raw h1 h2]

/-- Witness for C7 at two concrete match-free completions. -/
theorem c7_default_query_on_no_match_witness :
    (searchPat1 (("hello").data) = none ∧ searchPat2 (("hello").data) = none ∧
      extractSparqlFallback (("hello").data) = defaultQueryText) ∧
    (searchPat1 [] = none ∧ searchPat2 [] = none ∧
      extractSparqlFallback (("hello").data) = extractSparqlFallback []) ∧
    (jsonLoads (extractFenced (pyStrip (("hello").data))) = .error .jsonDecode ∧
      parseLLMResponse (("hello").data) =
        .ok (.obj [(kSparql, .str defaultQueryText), (kEntities, .arr []),
                   (kRelations, .arr []), (kExplanation, .str jsonInvalidText)])) :=
  ⟨⟨rfl, rfl, c7_default_query_on_no_match.1 (("hello").data) rfl rfl⟩,
   ⟨rfl, rfl, c7_default_query_on_no_match.2.1 (("hello").data) [] rfl rfl rfl rfl⟩,
   ⟨rfl, c7_default_query_on_no_match.2.2 (("hello").data) .jsonDecode rfl rfl rfl⟩⟩

theorem dictGet_insert_self (d : List (Text × JValue)) (k : Text) (v : JValue) :
    dictGet (dictInsert d k v) k = some v := by
  induction d with
  | nil => simp [dictInsert, dictGet]
  | cons head tail ih =>
    obtain ⟨k₁, v₁⟩ := head
    by_cases h : k₁ = k
    · simp [dictInsert, h, dictGet]
    · simp [dictInsert, h, dictGet, ih]

theorem dictGet_insert_ne (d : List (Text × JValue)) (k k' : Text) (v : JValue)
    (h : k' ≠ k) : dictGet (dictInsert d k v) k' = dictGet d k' := by
  induction d with
  | nil => simp [dictInsert, dictGet, Ne.symm h]
  | cons head tail ih =>
    obtain ⟨k₁, v₁⟩ := head
    by_cases hh : k₁ = k
    · subst hh
      simp [dictInsert, dictGet, Ne.symm h]
    · simp [dictInsert, hh, dictGet, ih]

theorem dictHasKey_insert_self (d : List (Text × JValue)) (k : Text) (v : JValue) :
    dictHasKey (dictInsert d k v) k = true := by
  simp [dictHasKey, dictGet_insert_self]

theorem defaultKey_obj (fs : List (Text × JValue)) (k : Text) (dv : JValue) :
    defaultKey (.obj fs) k dv =
      .ok (.obj (if dictHasKey fs k then fs else dictInsert fs k dv)) := by
  unfold defaultKey
  by_cases h : dictHasKey fs k
  · simp [pyContains, peBind, h]
  · simp [pyContains, peBind, h, pySetItem]

theorem dictGet_default_self (fs : List (Text × JValue)) (k : Text) (dv : JValue) :
    dictGet (if dictHasKey fs k then fs else dictInsert fs k dv) k =
      some ((dictGet fs k).getD dv) := by
  by_cases h : dictHasKey fs k
  · rw [if_pos h]
    obtain ⟨x, hx⟩ := Option.isSome_iff_exists.mp h
    rw [hx]
    rfl
  · rw [if_neg h, dictGet_insert_self]
    have : dictGet fs k = none := Option.not_isSome_iff_eq_none.mp h
    rw [this]
    rfl

theorem dictGet_default_ne (fs : List (Text × JValue)) (k k' : Text) (dv : JValue)
    (h : k' ≠ k) :
    dictGet (if dictHasKey fs k then fs else dictInsert fs k dv) k' = dictGet fs k' := by
  by_cases hh : dictHasKey fs k
  · rw [if_pos hh]
  · rw [if_neg hh, dictGet_insert_ne _ _ _ _ h]

theorem defaults_chain (fs₂ : List (Text × JValue)) :
    ∃ fs₅,
      (peBind (defaultKey (.obj fs₂) kEntities (.arr [])) fun v3 =>
       peBind (defaultKey v3 kRelations (.arr [])) fun v4 =>
       defaultKey v4 kExplanation (.str defaultExplanationText)) = .ok (.obj fs₅) ∧
      dictGet fs₅ kSparql = dictGet fs₂ kSparql ∧
      dictGet fs₅ kEntities = some ((dictGet fs₂ kEntities).getD (.arr [])) ∧
      dictGet fs₅ kRelations = some ((dictGet fs₂ kRelations).getD (.arr [])) ∧
      dictGet fs₅ kExplanation = some ((dictGet fs₂ kExplanation).getD (.str defaultExplanationText)) := by
  have hse : kSparql ≠ kEntities := by decide
  have hsr : kSparql ≠ kRelations := by decide
  have hsx : kSparql ≠ kExplanation := by decide
  have her : kEntities ≠ kRelations := by decide
  have hex : kEntities ≠ kExplanation := by decide
  have hrx : kRelations ≠ kExplanation := by decide
  rw [defaultKey_obj]
  simp only [peBind]
  rw [defaultKey_obj]
  simp only [peBind]
  rw [defaultKey_obj]
  refine ⟨_, rfl, ?_, ?_, ?_, ?_⟩
  · rw [dictGet_default_ne _ _ _ _ hsx, dictGet_default_ne _ _ _ _ hsr,
      dictGet_default_ne _ _ _ _ hse]
  · rw [dictGet_default_ne _ _ _ _ hex, dictGet_default_ne _ _ _ _ her,
      dictGet_default_self]
  · rw [dictGet_default_ne _ _ _ _ hrx, dictGet_default_self,
      dictGet_default_ne _ _ _ _ (Ne.symm her)]
  · rw [dictGet_default_self, dictGet_default_ne _ _ _ _ (Ne.symm hrx),
      dictGet_default_ne _ _ _ _ (Ne.symm hex)]

theorem afterDecode_absent (raw : Text) (d : List (Text × JValue))
    (h : dictGet d kSparql = none) :
    ∃ fs, afterDecode raw (.obj d) = .ok (.obj fs) ∧
      dictGet fs kSparql = some (.str (extractSparqlFallback raw)) ∧
      dictGet fs kEntities = some ((dictGet d kEntities).getD (.arr [])) ∧
      dictGet fs kRelations = some ((dictGet d kRelations).getD (.arr [])) ∧
      dictGet fs kExplanation = some ((dictGet d kExplanation).getD (.str defaultExplanationText)) := by
  have hse : kEntities ≠ kSparql := by decide
  have hsr : kRelations ≠ kSparql := by decide
  have hsx : kExplanation ≠ kSparql := by decide
  have hk : dictHasKey d kSparql = false := by simp [dictHasKey, h]
  unfold afterDecode
  simp only [pyContains, peBind, hk, Bool.false_eq_true, if_false, pySetItem]
  obtain ⟨fs₅, hc, f1, f2, f3, f4⟩ := defaults_chain (dictInsert d kSparql
    (.str (extractSparqlFallback raw)))
  simp only [peBind] at hc
  rw [hc]
  exact ⟨fs₅, rfl,
    by rw [f1, dictGet_insert_self],
    by rw [f2, dictGet_insert_ne _ _ _ _ hse],
    by rw [f3, dictGet_insert_ne _ _ _ _ hsr],
    by rw [f4, dictGet_insert_ne _ _ _ _ hsx]⟩

theorem afterDecode_str (raw : Text) (d : List (Text × JValue)) (s : Text)
    (h : dictGet d kSparql = some (.str s)) :
    ∃ fs, afterDecode raw (.obj d) = .ok (.obj fs) ∧
      dictGet fs kSparql = some (if pyStrip (unescapeQ s) = [] then
        .str (extractSparqlFallback raw) else .str (unescapeQ s)) ∧
      dictGet fs kEntities = some ((dictGet d kEntities).getD (.arr [])) ∧
      dictGet fs kRelations = some ((dictGet d kRelations).getD (.arr [])) ∧
      dictGet fs kExplanation = some ((dictGet d kExplanation).getD (.str defaultExplanationText)) := by
  have hse : kEntities ≠ kSparql := by decide
  have hsr : kRelations ≠ kSparql := by decide
  have hsx : kExplanation ≠ kSparql := by decide
  have hk : dictHasKey d kSparql = true := by simp [dictHasKey, h]
  unfold afterDecode
  simp only [pyContains, peBind, hk, if_true, pyGetItem, h, pySetItem]
  simp only [dictHasKey_insert_self, if_true, peBind, dictGet_insert_self, pyStripAttr]
  by_cases hb : pyStrip (unescapeQ s) = []
  · rw [if_pos hb]
    simp only [pySetItem, peBind]
    obtain ⟨fs₅, hc, f1, f2, f3, f4⟩ := defaults_chain (dictInsert
      (dictInsert d kSparql (.str (unescapeQ s))) kSparql (.str (extractSparqlFallback raw)))
    simp only [peBind] at hc
    rw [hc]
    refine ⟨fs₅, rfl, ?_, ?_, ?_, ?_⟩
    · rw [f1, dictGet_insert_self, if_pos hb]
    · rw [f2, dictGet_insert_ne _ _ _ _ hse, dictGet_insert_ne _ _ _ _ hse]
    · rw [f3, dictGet_insert_ne _ _ _ _ hsr, dictGet_insert_ne _ _ _ _ hsr]
    · rw [f4, dictGet_insert_ne _ _ _ _ hsx, dictGet_insert_ne _ _ _ _ hsx]
  · rw [if_neg hb]
    simp only [peBind]
    obtain ⟨fs₅, hc, f1, f2, f3, f4⟩ := defaults_chain (dictInsert d kSparql
      (.str (unescapeQ s)))
    simp only [peBind] at hc
    rw [hc]
    refine ⟨fs₅, rfl, ?_, ?_, ?_, ?_⟩
    · rw [f1, dictGet_insert_self, if_neg hb]
    · rw [f2, dictGet_insert_ne _ _ _ _ hse]
    · rw [f3, dictGet_insert_ne _ _ _ _ hsr]
    · rw [f4, dictGet_insert_ne _ _ _ _ hsx]

/-- C2 counterexample: the completion text `{"sparql_query": 5}` is valid
JSON whose `sparql_query` is a number; line 519's `.strip()` call then
raises `AttributeError`, which only the `json.JSONDecodeError` handler
could have caught — so `generate` does raise and returns no
result for this perfectly possible completion. -/
theorem c2_nonstring_query_raises :
    parseLLMResponse (("\x7b\"sparql_query\": 5\x7d").data) = .error .attributeError ∧
    parseLLMResponse (("3").data) = .error .typeError :=
  ⟨rfl, rfl⟩

/-- C2 as amended: for every completion text that either fails to decode
as JSON or decodes to a JSON object whose `sparql_query` field, if
present, is a string, the generator raises nothing and returns a
dictionary carrying all four fields, with `sparql_query` a string. -/
theorem c2_generate_total_on_wellformed (raw : Text)
    (h : (∃ er, jsonLoads (extractFenced (pyStrip raw)) = .error er) ∨
         (∃ d, jsonLoads (extractFenced (pyStrip raw)) = .ok (.obj d) ∧
            (dictGet d kSparql = none ∨ ∃ s, dictGet d kSparql = some (.str s)))) :
    ∃ fs, parseLLMResponse raw = .ok (.obj fs) ∧
      (∃ q, dictGet fs kSparql = some (.str q)) ∧
      (dictGet fs kEntities).isSome ∧ (dictGet fs kRelations).isSome ∧
      (dictGet fs kExplanation).isSome := by
  rcases h with ⟨er, her⟩ | ⟨d, hd, habs | ⟨s, hs⟩⟩
  · exact ⟨[(kSparql, .str (extractSparqlFallback raw)), (kEntities, .arr []),
      (kRelations, .arr []), (kExplanation, .str jsonInvalidText)],
      by simp only [parseLLMResponse, her]; rfl,
      ⟨extractSparqlFallback raw, rfl⟩, rfl, rfl, rfl⟩
  · obtain ⟨fs, hfs, f1, f2, f3, f4⟩ := afterDecode_absent raw d habs
    refine ⟨fs, by simp only [parseLLMResponse, hd, hfs], ⟨_, f1⟩, ?_, ?_, ?_⟩
    · rw [f2]; rfl
    · rw [f3]; rfl
    · rw [f4]; rfl
  · obtain ⟨fs, hfs, f1, f2, f3, f4⟩ := afterDecode_str raw d s hs
    refine ⟨fs, by simp only [parseLLMResponse, hd, hfs], ?_, ?_, ?_, ?_⟩
    · by_cases hb : pyStrip (unescapeQ s) = []
      · exact ⟨extractSparqlFallback raw, by rw [f1, if_pos hb]⟩
      · exact ⟨unescapeQ s, by rw [f1, if_neg hb]⟩
    · rw [f2]; rfl
    · rw [f3]; rfl
    · rw [f4]; rfl

/-- Witness for C2's amended theorem: an undecodable completion and a
well-formed one, both through the theorem. -/
theorem c2_generate_total_on_wellformed_witness :
    (jsonLoads (extractFenced (pyStrip (("zz").data))) = .error .jsonDecode ∧
      ∃ fs, parseLLMResponse (("zz").data) = .ok (.obj fs) ∧
        (∃ q, dictGet fs kSparql = some (.str q)) ∧
        (dictGet fs kEntities).isSome ∧ (dictGet fs kRelations).isSome ∧
        (dictGet fs kExplanation).isSome) ∧
    (jsonLoads (extractFenced (pyStrip (("\x7b\"sparql_query\": \"Q\"\x7d").data))) =
        .ok (.obj [(kSparql, .str (("Q").data))]) ∧
      ∃ fs, parseLLMResponse (("\x7b\"sparql_query\": \"Q\"\x7d").data) = .ok (.obj fs) ∧
        (∃ q, dictGet fs kSparql = some (.str q)) ∧
        (dictGet fs kEntities).isSome ∧ (dictGet fs kRelations).isSome ∧
        (dictGet fs kExplanation).isSome) :=
  ⟨⟨rfl, c2_generate_total_on_wellformed (("zz").data) (.inl ⟨.jsonDecode, rfl⟩)⟩,
   ⟨rfl, c2_generate_total_on_wellformed (("\x7b\"sparql_query\": \"Q\"\x7d").data)
      (.inr ⟨[(kSparql, .str (("Q").data))], rfl, .inr ⟨("Q").data, rfl⟩⟩)⟩⟩

/-- C3 counterexample: the valid-JSON completion below has a blank
`sparql_query` (triggering fallback extraction) and a nested-brace query
inside another field.  The result keeps the non-empty `entities_used`
and the parsed explanation (nothing records a fallback), and the
extracted span stops at the FIRST closing brace — two opening braces but
only one closing brace — rather than the balanced outer block. -/
theorem c3_blank_trigger_counterexample :
    parseLLMResponse (("\x7b\"sparql_query\": \"\", \"entities_used\": [\"Horse\"], \"relations_used\": [], \"explanation\": \"x\", \"note\": \"SELECT ?x WHERE \x7b OPTIONAL \x7b ?x ?p ?o \x7d \x7d\"\x7d").data) =
      .ok (.obj [(kSparql, .str (("SELECT ?x WHERE \x7b OPTIONAL \x7b ?x ?p ?o \x7d").data)),
                 (kEntities, .arr [.str (("Horse").data)]),
                 (kRelations, .arr []),
                 (kExplanation, .str (("x").data)),
                 ((("note").data), .str (("SELECT ?x WHERE \x7b OPTIONAL \x7b ?x ?p ?o \x7d \x7d").data))]) ∧
    (JValue.arr [.str (("Horse").data)] ≠ .arr []) ∧
    (JValue.str (("x").data) ≠ .str jsonInvalidText) ∧
    ((("SELECT ?x WHERE \x7b OPTIONAL \x7b ?x ?p ?o \x7d").data).count (Char.ofNat 123) = 2 ∧
     (("SELECT ?x WHERE \x7b OPTIONAL \x7b ?x ?p ?o \x7d").data).count (Char.ofNat 125) = 1) := by
  refine ⟨rfl, by simp, by simp [jsonInvalidText], by decide, by decide⟩

/-- C3 as amended: fallback extraction scans the raw completion with the
two ordered matchers — first a full query from the prefix declaration,
then just the retrieval clause — each matching lazily through the FIRST
closing brace after the retrieval clause's opening brace (not a balanced
outer block); the first matcher that matches wins, with unescaping
applied to the matched span.  When the trigger is a JSON-decode failure
the result has empty `entities_used`/`relations_used` and an explanation
recording the fallback; when the trigger is a blank `query_text` the
other fields keep their parsed values, defaulted only when absent. -/
theorem c3_fallback_extraction_behaviour :
    (∀ (raw : Text) (er : PyErr),
      jsonLoads (extractFenced (pyStrip raw)) = .error er →
      parseLLMResponse raw =
        .ok (.obj [(kSparql, .str (extractSparqlFallback raw)), (kEntities, .arr []),
                   (kRelations, .arr []), (kExplanation, .str jsonInvalidText)])) ∧
    (∀ (raw span : Text), searchPat1 raw = some span →
      extractSparqlFallback raw = unescapeQ (pyStrip span)) ∧
    (∀ (raw span : Text), searchPat1 raw = none → searchPat2 raw = some span →
      extractSparqlFallback raw = unescapeQ (pyStrip span)) ∧
    (∀ (raw : Text) (d : List (Text × JValue)) (s : Text),
      jsonLoads (extractFenced (pyStrip raw)) = .ok (.obj d) →
      dictGet d kSparql = some (.str s) → pyStrip (unescapeQ s) = [] →
      ∃ fs, parseLLMResponse raw = .ok (.obj fs) ∧
        dictGet fs kSparql = some (.str (extractSparqlFallback raw)) ∧
        dictGet fs kEntities = some ((dictGet d kEntities).getD (.arr [])) ∧
        dictGet fs kRelations = some ((dictGet d kRelations).getD (.arr [])) ∧
        dictGet fs kExplanation = some ((dictGet d kExplanation).getD (.str defaultExplanationText))) := by
  refine ⟨?_, ?_, ?_, ?_⟩
  · intro raw er her
    simp only [parseLLMResponse, her]
    rfl
  · intro raw span h1
    unfold extractSparqlFallback
    rw [h1]
  · intro raw span h1 h2
    unfold extractSparqlFallback
    rw [h1, h2]
  · intro raw d s hd hs hb
    obtain ⟨fs, hfs, f1, f2, f3, f4⟩ := afterDecode_str raw d s hs
    rw [if_pos hb] at f1
    exact ⟨fs, by simp only [parseLLMResponse, hd, hfs], f1, f2, f3, f4⟩

/-- Witness for C3's amended theorem at concrete completions: a decode
failure, a prefix-pattern match, a clause-only match, and a blank-query
trigger. -/
theorem c3_fallback_extraction_behaviour_witness :
    (jsonLoads (extractFenced (pyStrip (("zz").data))) = .error .jsonDecode ∧
      parseLLMResponse (("zz").data) =
        .ok (.obj [(kSparql, .str (extractSparqlFallback (("zz").data))), (kEntities, .arr []),
                   (kRelations, .arr []), (kExplanation, .str jsonInvalidText)])) ∧
    (searchPat1 (("PREFIX p: <u> SELECT ?a WHERE \x7b x \x7d tail").data) =
        some (("PREFIX p: <u> SELECT ?a WHERE \x7b x \x7d").data) ∧
      extractSparqlFallback (("PREFIX p: <u> SELECT ?a WHERE \x7b x \x7d tail").data) =
        unescapeQ (pyStrip (("PREFIX p: <u> SELECT ?a WHERE \x7b x \x7d").data))) ∧
    (searchPat1 (("see select ?x where \x7b y \x7d").data) = none ∧
      searchPat2 (("see select ?x where \x7b y \x7d").data) =
        some (("select ?x where \x7b y \x7d").data) ∧
      extractSparqlFallback (("see select ?x where \x7b y \x7d").data) =
        unescapeQ (pyStrip (("select ?x where \x7b y \x7d").data))) ∧
    (jsonLoads (extractFenced (pyStrip (("\x7b\"sparql_query\": \" \", \"entities_used\": [\"Horse\"]\x7d").data))) =
        .ok (.obj [(kSparql, .str ((" ").data)), (kEntities, .arr [.str (("Horse").data)])]) ∧
      ∃ fs, parseLLMResponse (("\x7b\"sparql_query\": \" \", \"entities_used\": [\"Horse\"]\x7d").data) =
          .ok (.obj fs) ∧
        dictGet fs kSparql = some (.str (extractSparqlFallback
          (("\x7b\"sparql_query\": \" \", \"entities_used\": [\"Horse\"]\x7d").data))) ∧
        dictGet fs kEntities = some ((dictGet [(kSparql, .str ((" ").data)),
          (kEntities, .arr [.str (("Horse").data)])] kEntities).getD (.arr [])) ∧
        dictGet fs kRelations = some ((dictGet [(kSparql, .str ((" ").data)),
          (kEntities, .arr [.str (("Horse").data)])] kRelations).getD (.arr [])) ∧
        dictGet fs kExplanation = some ((dictGet [(kSparql, .str ((" ").data)),
          (kEntities, .arr [.str (("Horse").data)])] kExplanation).getD (.str defaultExplanationText))) :=
  ⟨⟨rfl, c3_fallback_extraction_behaviour.1 (("zz").data) .jsonDecode rfl⟩,
   ⟨rfl, c3_fallback_extraction_behaviour.2.1
      (("PREFIX p: <u> SELECT ?a WHERE \x7b x \x7d tail").data)
      (("PREFIX p: <u> SELECT ?a WHERE \x7b x \x7d").data) rfl⟩,
   ⟨rfl, rfl, c3_fallback_extraction_behaviour.2.2.1
      (("see select ?x where \x7b y \x7d").data)
      (("select ?x where \x7b y \x7d").data) rfl rfl⟩,
   ⟨rfl, c3_fallback_extraction_behaviour.2.2.2
      (("\x7b\"sparql_query\": \" \", \"entities_used\": [\"Horse\"]\x7d").data)
      [(kSparql, .str ((" ").data)), (kEntities, .arr [.str (("Horse").data)])]
      ((" ").data) rfl rfl rfl⟩⟩

theorem isPrefixOf_length_le : ∀ pat s : Text, pat.isPrefixOf s = true → pat.length ≤ s.length := by
  intro pat
  induction pat with
  | nil => intro s _; simp
  | cons p ps ih =>
    intro s h
    cases s with
    | nil => exact absurd h (by simp [List.isPrefixOf])
    | cons c cs =>
      simp only [List.isPrefixOf, Bool.and_eq_true] at h
      simp only [List.length_cons, Nat.succ_le_succ_iff]
      exact ih cs h.2

theorem isPrefixOf_nil_eq : ∀ pat : Text, pat.isPrefixOf ([] : Text) = true → pat = [] := by
  intro pat h
  cases pat with
  | nil => rfl
  | cons p ps => exact absurd h (by simp [List.isPrefixOf])

theorem pyReplaceF_fuelIrrel (pat rep : Text) : ∀ f g s, s.length < f → s.length < g →
    pyReplaceF f s pat rep = pyReplaceF g s pat rep := by
  intro f
  induction f with
  | zero => intro g s hf _; exact absurd hf (Nat.not_lt_zero _)
  | succ f ih =>
    intro g s hf hg
    cases g with
    | zero => exact absurd hg (Nat.not_lt_zero _)
    | succ g =>
      simp only [pyReplaceF]
      by_cases hp : pat.isPrefixOf s ∧ pat ≠ []
      · rw [if_pos hp, if_pos hp]
        congr 1
        have hple : pat.length ≤ s.length := isPrefixOf_length_le pat s hp.1
        have hppos : 0 < pat.length := List.length_pos.mpr hp.2
        refine ih g (s.drop pat.length) ?_ ?_ <;> (simp only [List.length_drop]; omega)
      · rw [if_neg hp, if_neg hp]
        cases s with
        | nil => rfl
        | cons c rest =>
          simp only [List.cons.injEq, true_and]
          exact ih g rest (by simp only [List.length_cons] at hf; omega)
            (by simp only [List.length_cons] at hg; omega)

theorem pyReplace_nil (pat rep : Text) : pyReplace [] pat rep = [] := by
  unfold pyReplace
  simp only [List.length_nil, pyReplaceF]
  by_cases hp : pat.isPrefixOf ([] : Text) ∧ pat ≠ []
  · exact absurd (isPrefixOf_nil_eq pat hp.1) hp.2
  · rw [if_neg hp]

theorem pyReplace_pos (s pat rep : Text) (h1 : pat.isPrefixOf s) (h2 : pat ≠ []) :
    pyReplace s pat rep = rep ++ pyReplace (s.drop pat.length) pat rep := by
  unfold pyReplace
  have e1 : pyReplaceF (s.length + 1) s pat rep =
      rep ++ pyReplaceF s.length (s.drop pat.length) pat rep := by
    simp only [pyReplaceF]
    rw [if_pos ⟨h1, h2⟩]
  rw [e1]
  congr 1
  apply pyReplaceF_fuelIrrel
  · have hple : pat.length ≤ s.length := isPrefixOf_length_le pat s h1
    have hppos : 0 < pat.length := List.length_pos.mpr h2
    simp only [List.length_drop]
    omega
  · simp only [List.length_drop]
    omega

theorem pyReplace_neg (c : Char) (rest pat rep : Text)
    (h : ¬ pat.isPrefixOf (c :: rest) = true) :
    pyReplace (c :: rest) pat rep = c :: pyReplace rest pat rep := by
  unfold pyReplace
  simp only [pyReplaceF]
  rw [if_neg (fun hp => h hp.1)]

theorem isPrefixOf_append_self (pat t : Text) : pat.isPrefixOf (pat ++ t) = true := by
  induction pat with
  | nil => cases t <;> rfl
  | cons p ps ih => simp [List.isPrefixOf, ih]

theorem replaceN_escape (s : Text) (h : '\\' ∉ s) :
    pyReplace (escapeNT s) ['\\', 'n'] ['\n'] = escapeTabOnly s := by
  induction s with
  | nil => exact pyReplace_nil _ _
  | cons c rest ih =>
    have hmem := h
    simp only [List.mem_cons, not_or] at hmem
    obtain ⟨hc, hr⟩ := hmem
    by_cases hn : c = '\n'
    · subst hn
      have e : escapeNT ('\n' :: rest) = '\\' :: 'n' :: escapeNT rest := by
        simp [escapeNT]
      have e2 : escapeTabOnly ('\n' :: rest) = '\n' :: escapeTabOnly rest := by
        simp [escapeTabOnly]
      rw [e, e2,
        pyReplace_pos ('\\' :: 'n' :: escapeNT rest) ['\\', 'n'] ['\n']
          (isPrefixOf_append_self ['\\', 'n'] (escapeNT rest)) (by decide)]
      rw [show ('\\' :: 'n' :: escapeNT rest).drop (['\\', 'n'] : Text).length =
        escapeNT rest from rfl, ih hr]
      rfl
    · by_cases ht : c = '\t'
      · subst ht
        have e : escapeNT ('\t' :: rest) = '\\' :: 't' :: escapeNT rest := by
          simp [escapeNT]
        have e2 : escapeTabOnly ('\t' :: rest) = '\\' :: 't' :: escapeTabOnly rest := by
          simp [escapeTabOnly]
        have hnot1 : ¬ (['\\', 'n'] : Text).isPrefixOf ('\\' :: 't' :: escapeNT rest) = true := by
          simp [List.isPrefixOf]
        have hnot2 : ¬ (['\\', 'n'] : Text).isPrefixOf ('t' :: escapeNT rest) = true := by
          simp [List.isPrefixOf]
        rw [e, e2, pyReplace_neg _ _ _ _ hnot1, pyReplace_neg _ _ _ _ hnot2, ih hr]
      · have e : escapeNT (c :: rest) = c :: escapeNT rest := by
          simp [escapeNT, hn, ht]
        have e2 : escapeTabOnly (c :: rest) = c :: escapeTabOnly rest := by
          simp [escapeTabOnly, ht]
        have hnot : ¬ (['\\', 'n'] : Text).isPrefixOf (c :: escapeNT rest) = true := by
          simp only [List.isPrefixOf, Bool.and_eq_true, beq_iff_eq]
          intro hh
          exact hc hh.1
        rw [e, e2, pyReplace_neg _ _ _ _ hnot, ih hr]

theorem replaceT_escapeTab (s : Text) (h : '\\' ∉ s) :
    pyReplace (escapeTabOnly s) ['\\', 't'] ['\t'] = s := by
  induction s with
  | nil => exact pyReplace_nil _ _
  | cons c rest ih =>
    have hmem := h
    simp only [List.mem_cons, not_or] at hmem
    obtain ⟨hc, hr⟩ := hmem
    by_cases ht : c = '\t'
    · subst ht
      have e : escapeTabOnly ('\t' :: rest) = '\\' :: 't' :: escapeTabOnly rest := by
        simp [escapeTabOnly]
      rw [e,
        pyReplace_pos ('\\' :: 't' :: escapeTabOnly rest) ['\\', 't'] ['\t']
          (isPrefixOf_append_self ['\\', 't'] (escapeTabOnly rest)) (by decide)]
      rw [show ('\\' :: 't' :: escapeTabOnly rest).drop (['\\', 't'] : Text).length =
        escapeTabOnly rest from rfl, ih hr]
      rfl
    · have e : escapeTabOnly (c :: rest) = c :: escapeTabOnly rest := by
        simp [escapeTabOnly, ht]
      have hnot : ¬ (['\\', 't'] : Text).isPrefixOf (c :: escapeTabOnly rest) = true := by
        simp only [List.isPrefixOf, Bool.and_eq_true, beq_iff_eq]
        intro hh
        exact hc hh.1
      rw [e, pyReplace_neg _ _ _ _ hnot, ih hr]

/-- C6: (i) when the completion decodes to a JSON object whose
`sparql_query` is a string that is non-blank after unescaping, the
generator's result carries exactly the unescaped field value; (ii) the
spec's round trip — escape newlines and tabs, then apply the
generator's unescaping — is the identity on every backslash-free
string. -/
theorem c6_query_text_unescaped_roundtrip :
    (∀ (raw : Text) (d : List (Text × JValue)) (s : Text),
      jsonLoads (extractFenced (pyStrip raw)) = .ok (.obj d) →
      dictGet d kSparql = some (.str s) →
      pyStrip (unescapeQ s) ≠ [] →
      ∃ fs, parseLLMResponse raw = .ok (.obj fs) ∧
        dictGet fs kSparql = some (.str (unescapeQ s))) ∧
    (∀ s : Text, '\\' ∉ s → unescapeQ (escapeNT s) = s) := by
  constructor
  · intro raw d s hd hs hb
    obtain ⟨fs, hfs, f1, _, _, _⟩ := afterDecode_str raw d s hs
    rw [if_neg hb] at f1
    exact ⟨fs, by simp only [parseLLMResponse, hd, hfs], f1⟩
  · intro s h
    show pyReplace (pyReplace (escapeNT s) ['\\', 'n'] ['\n']) ['\\', 't'] ['\t'] = s
    rw [replaceN_escape s h, replaceT_escapeTab s h]

/-- Witness for C6: a double-escaped completion value round-trips to a
real newline, and the escape/unescape identity at a concrete string. -/
theorem c6_query_text_unescaped_roundtrip_witness :
    (jsonLoads (extractFenced (pyStrip (("\x7b\"sparql_query\": \"A\\\\nB\"\x7d").data))) =
        .ok (.obj [(kSparql, .str (("A\\nB").data))]) ∧
      pyStrip (unescapeQ (("A\\nB").data)) ≠ [] ∧
      ∃ fs, parseLLMResponse (("\x7b\"sparql_query\": \"A\\\\nB\"\x7d").data) = .ok (.obj fs) ∧
        dictGet fs kSparql = some (.str (unescapeQ (("A\\nB").data)))) ∧
    ('\\' ∉ (("a\nb\tc").data) ∧
      unescapeQ (escapeNT (("a\nb\tc").data)) = ("a\nb\tc").data) :=
  ⟨⟨rfl, by decide,
    c6_query_text_unescaped_roundtrip.1 (("\x7b\"sparql_query\": \"A\\\\nB\"\x7d").data)
      [(kSparql, .str (("A\\nB").data))] (("A\\nB").data) rfl rfl (by decide)⟩,
   ⟨by decide, c6_query_text_unescaped_roundtrip.2 (("a\nb\tc").data) (by decide)⟩⟩

theorem matchSub_head (p : Char) (ps t : Text) (h : matchSub (p :: ps) t = true) :
    t.head? = some p := by
  cases t with
  | nil => exact absurd h (by simp [matchSub])
  | cons c cs =>
    simp only [matchSub, Bool.and_eq_true, decide_eq_true_eq] at h
    simp [h.1]

theorem matchSub_append_self (pat b : Text) : matchSub pat (pat ++ b) = true := by
  induction pat with
  | nil => simp [matchSub]
  | cons p ps ih => simp [matchSub, ih]

theorem findSubAux_here (t pat : Text) (i : Nat) (h : matchSub pat t = true) :
    findSubAux t pat i = some i := by
  cases t with
  | nil =>
    cases pat with
    | nil => rfl
    | cons p ps => exact absurd h (by simp [matchSub])
  | cons c cs => simp only [findSubAux, h, if_true]

theorem findSubAux_append_skip : ∀ (a s pat : Text) (i : Nat),
    (∀ j, j < a.length → matchSub pat ((a ++ s).drop j) = false) →
    findSubAux (a ++ s) pat i = findSubAux s pat (i + a.length) := by
  intro a
  induction a with
  | nil =>
    intro s pat i _
    simp
  | cons c a' ih =>
    intro s pat i h
    have h0 := h 0 (by simp)
    simp only [List.drop_zero, List.cons_append] at h0
    simp only [List.cons_append, findSubAux, List.append_eq]
    rw [h0]
    simp only [Bool.false_eq_true, if_false]
    rw [ih s pat (i + 1) (fun j hj => by
      have := h (j + 1) (by simp only [List.length_cons]; omega)
      simpa using this)]
    congr 1
    simp only [List.length_cons]
    omega

theorem head?_drop_eq_getElem? : ∀ (l : Text) (n : Nat), (l.drop n).head? = l[n]? := by
  intro l
  induction l with
  | nil => intro n; cases n <;> simp
  | cons c rest ih =>
    intro n
    cases n with
    | zero => simp
    | succ m => simp only [List.drop_succ_cons, List.getElem?_cons_succ]; exact ih m

theorem no_match_of_head_notin (a rest pat : Text) (p0 : Char) (ps : Text)
    (hp : pat = p0 :: ps) (ha : p0 ∉ a) :
    ∀ j, j < a.length → matchSub pat ((a ++ rest).drop j) = false := by
  intro j hj
  by_contra hmatch
  have hm : matchSub pat ((a ++ rest).drop j) = true := by
    cases hmm : matchSub pat ((a ++ rest).drop j)
    · exact absurd hmm hmatch
    · rfl
  rw [hp] at hm
  have hd := matchSub_head p0 ps _ hm
  rw [head?_drop_eq_getElem?] at hd
  rw [List.getElem?_append_left hj] at hd
  exact ha (List.getElem?_mem hd)

theorem findSub_boundary (a pat b : Text)
    (hno : ∀ j, j < a.length → matchSub pat ((a ++ (pat ++ b)).drop j) = false) :
    findSub (a ++ (pat ++ b)) pat = some a.length := by
  unfold findSub
  rw [findSubAux_append_skip a (pat ++ b) pat 0 hno,
    findSubAux_here _ _ _ (matchSub_append_self pat b)]
  simp

theorem dropAfter_boundary (a pat b : Text)
    (hfind : findSub (a ++ (pat ++ b)) pat = some a.length) :
    dropAfterFirstSub (a ++ (pat ++ b)) pat = b := by
  unfold dropAfterFirstSub
  simp only [hfind]
  rw [← List.append_assoc,
    show a.length + pat.length = (a ++ pat).length from by simp]
  exact List.drop_left _ _

theorem takeBefore_boundary (a pat rest : Text)
    (hfind : findSub (a ++ rest) pat = some a.length) :
    takeBeforeSub (a ++ rest) pat = a := by
  unfold takeBeforeSub
  simp only [hfind]
  exact List.take_left _ _

theorem dropWhile_append_of_head (x y : Text) (hy : y ≠ [])
    (hyh : ∀ c, y.head? = some c → pySpace c = false) :
    List.dropWhile pySpace (x ++ y) = List.dropWhile pySpace x ++ y := by
  induction x with
  | nil =>
    cases y with
    | nil => exact absurd rfl hy
    | cons c cs =>
      simp only [List.nil_append, List.dropWhile_cons, hyh c rfl, Bool.false_eq_true,
        if_false, List.dropWhile_nil]
  | cons c x' ih =>
    simp only [List.cons_append, List.dropWhile_cons]
    by_cases hc : pySpace c
    · simp only [hc, if_true, ih]
    · simp only [hc, Bool.false_eq_true, if_false, List.cons_append]

theorem pyStripLeft_append (a b : Text) (hb : b ≠ [])
    (hbh : ∀ c, b.head? = some c → pySpace c = false) :
    pyStripLeft (a ++ b) = pyStripLeft a ++ b :=
  dropWhile_append_of_head a b hb hbh

theorem pyStripRight_append (a b : Text) (ha : a ≠ [])
    (hal : ∀ c, a.getLast? = some c → pySpace c = false) :
    pyStripRight (a ++ b) = a ++ pyStripRight b := by
  unfold pyStripRight
  rw [List.reverse_append,
    dropWhile_append_of_head b.reverse a.reverse
      (by simpa using ha)
      (fun c hc => hal c (by rwa [List.head?_reverse] at hc)),
    List.reverse_append, List.reverse_reverse]

theorem pyStrip_sandwich (pre mid post : Text) :
    pyStrip (pre ++ (jsonFenceTok ++ (mid ++ (fenceTok ++ post)))) =
      pyStripLeft pre ++ (jsonFenceTok ++ (mid ++ (fenceTok ++ pyStripRight post))) := by
  unfold pyStrip
  rw [pyStripLeft_append pre (jsonFenceTok ++ (mid ++ (fenceTok ++ post)))
      (by simp [jsonFenceTok])
      (fun c hc => by
        have : c = '\x60' := by
          have he : (jsonFenceTok ++ (mid ++ (fenceTok ++ post))).head? = some '\x60' := rfl
          rw [he] at hc
          exact (Option.some.injEq _ _ ▸ hc).symm
        rw [this]
        rfl)]
  have hregroup : pyStripLeft pre ++ (jsonFenceTok ++ (mid ++ (fenceTok ++ post))) =
      (pyStripLeft pre ++ (jsonFenceTok ++ (mid ++ fenceTok))) ++ post := by
    simp [List.append_assoc]
  rw [hregroup,
    pyStripRight_append (pyStripLeft pre ++ (jsonFenceTok ++ (mid ++ fenceTok))) post
      (by simp [jsonFenceTok])
      (fun c hc => by
        have he : (pyStripLeft pre ++ (jsonFenceTok ++ (mid ++ fenceTok))).getLast? =
            some '\x60' := by
          rw [List.getLast?_append, List.getLast?_append, List.getLast?_append]
          rfl
        rw [he] at hc
        have : c = '\x60' := (Option.some.injEq _ _ ▸ hc).symm
        rw [this]
        rfl)]
  simp [List.append_assoc]

theorem extractFenced_sandwich (pre mid post : Text)
    (hpre : '\x60' ∉ pre) (hmid : '\x60' ∉ mid) :
    extractFenced (pre ++ (jsonFenceTok ++ (mid ++ (fenceTok ++ post)))) = pyStrip mid := by
  have hfind1 : findSub (pre ++ (jsonFenceTok ++ (mid ++ (fenceTok ++ post)))) jsonFenceTok =
      some pre.length :=
    findSub_boundary pre jsonFenceTok (mid ++ (fenceTok ++ post))
      (no_match_of_head_notin pre (jsonFenceTok ++ (mid ++ (fenceTok ++ post)))
        jsonFenceTok '\x60' (("\x60\x60json").data) rfl hpre)
  have hcont : containsSub (pre ++ (jsonFenceTok ++ (mid ++ (fenceTok ++ post))))
      jsonFenceTok = true := by
    unfold containsSub
    rw [hfind1]
    rfl
  have hdrop : dropAfterFirstSub (pre ++ (jsonFenceTok ++ (mid ++ (fenceTok ++ post))))
      jsonFenceTok = mid ++ (fenceTok ++ post) :=
    dropAfter_boundary pre jsonFenceTok _ hfind1
  have hfind2 : findSub (mid ++ (fenceTok ++ post)) fenceTok = some mid.length :=
    findSub_boundary mid fenceTok post
      (no_match_of_head_notin mid (fenceTok ++ post) fenceTok '\x60'
        (("\x60\x60").data) rfl hmid)
  have htake : takeBeforeSub (mid ++ (fenceTok ++ post)) fenceTok = mid :=
    takeBefore_boundary mid fenceTok (fenceTok ++ post) hfind2
  unfold extractFenced
  rw [if_pos hcont, hdrop, htake]

/-- C5: (i) whenever the completion contains a json-tagged fence marker,
extraction takes the span after the first json-tagged marker and before
the next plain marker — the json-tagged branch is preferred over the
untagged one, which is only consulted when no json tag occurs; (ii) for
a completion of the shape `pre ⋯ ```json mid ``` post` whose prefix and
fenced content hold no backtick, the cleaning step yields exactly the
stripped fenced content; (iii) whenever the cleaned text decodes as
JSON, the generator proceeds with the decoded value (no fallback). -/
theorem c5_fenced_json_extraction :
    (∀ s : Text, containsSub s jsonFenceTok = true →
      extractFenced s =
        pyStrip (takeBeforeSub (dropAfterFirstSub s jsonFenceTok) fenceTok)) ∧
    (∀ pre mid post : Text, '\x60' ∉ pre → '\x60' ∉ mid →
      extractFenced (pyStrip (pre ++ (jsonFenceTok ++ (mid ++ (fenceTok ++ post))))) =
        pyStrip mid) ∧
    (∀ (raw : Text) (v : JValue), jsonLoads (extractFenced (pyStrip raw)) = .ok v →
      parseLLMResponse raw = afterDecode raw v) := by
  refine ⟨?_, ?_, ?_⟩
  · intro s hcont
    unfold extractFenced
    rw [if_pos hcont]
  · intro pre mid post hpre hmid
    rw [pyStrip_sandwich]
    refine extractFenced_sandwich (pyStripLeft pre) mid (pyStripRight post) ?_ hmid
    intro hmem
    exact hpre (List.Sublist.mem hmem (List.dropWhile_sublist _))
  · intro raw v h
    simp only [parseLLMResponse, h]

/-- Witness for C5 at the spec's concrete scenario: a well-formed JSON
object wrapped in a json-tagged fence is unfenced and parses, and the
generator returns the fenced object's query verbatim. -/
theorem c5_fenced_json_extraction_witness :
    (containsSub (("\x60\x60\x60json\n\x7b\"sparql_query\": \"Q\"\x7d\n\x60\x60\x60").data)
        jsonFenceTok = true ∧
      extractFenced (("\x60\x60\x60json\n\x7b\"sparql_query\": \"Q\"\x7d\n\x60\x60\x60").data) =
        pyStrip (takeBeforeSub (dropAfterFirstSub
          (("\x60\x60\x60json\n\x7b\"sparql_query\": \"Q\"\x7d\n\x60\x60\x60").data)
          jsonFenceTok) fenceTok)) ∧
    ('\x60' ∉ ([] : Text) ∧ '\x60' ∉ (("\n\x7b\"sparql_query\": \"Q\"\x7d\n").data) ∧
      extractFenced (pyStrip
          (("\x60\x60\x60json\n\x7b\"sparql_query\": \"Q\"\x7d\n\x60\x60\x60").data)) =
        pyStrip (("\n\x7b\"sparql_query\": \"Q\"\x7d\n").data)) ∧
    (jsonLoads (extractFenced (pyStrip
        (("\x60\x60\x60json\n\x7b\"sparql_query\": \"Q\"\x7d\n\x60\x60\x60").data))) =
        .ok (.obj [(kSparql, .str (("Q").data))]) ∧
      parseLLMResponse (("\x60\x60\x60json\n\x7b\"sparql_query\": \"Q\"\x7d\n\x60\x60\x60").data) =
        afterDecode (("\x60\x60\x60json\n\x7b\"sparql_query\": \"Q\"\x7d\n\x60\x60\x60").data)
          (.obj [(kSparql, .str (("Q").data))]) ∧
      parseLLMResponse (("\x60\x60\x60json\n\x7b\"sparql_query\": \"Q\"\x7d\n\x60\x60\x60").data) =
        .ok (.obj [(kSparql, .str (("Q").data)), (kEntities, .arr []),
                   (kRelations, .arr []), (kExplanation, .str defaultExplanationText)])) :=
  ⟨⟨rfl, c5_fenced_json_extraction.1
      (("\x60\x60\x60json\n\x7b\"sparql_query\": \"Q\"\x7d\n\x60\x60\x60").data) rfl⟩,
   ⟨by decide, by decide,
    c5_fenced_json_extraction.2.1 [] (("\n\x7b\"sparql_query\": \"Q\"\x7d\n").data) []
      (by decide) (by decide)⟩,
   ⟨rfl,
    c5_fenced_json_extraction.2.2
      (("\x60\x60\x60json\n\x7b\"sparql_query\": \"Q\"\x7d\n\x60\x60\x60").data)
      (.obj [(kSparql, .str (("Q").data))]) rfl,
    rfl⟩⟩
